import Mathlib

/-!
Verification development for the TV-show tracking dashboard
(src/streamlit_app.py).  The definitions below are a shallow embedding of
the reconciliation logic of that file: tolerant value coercion, the show
loader, the watch-status filters and the episode update writer.  Cell
values coming from the backing spreadsheet are strings, integers,
booleans or missing values; they are modelled by the inductive type
`Value`.  Python string conversion and equality are modelled by `pyStr`
and `pyEq` on that domain.
-/

/-- Raw cell value as delivered by the backing store (gspread
`get_all_records`): a string, an integer, a boolean, or a missing value
(Python `None`).  Floating point cells are outside the model. -/
inductive Value where
  | VStr : String → Value
  | VBool : Bool → Value
  | VInt : Int → Value
  | VNone : Value
deriving DecidableEq

/-- Python `str(...)` on the modelled value domain. -/
def pyStr : Value → String
  | .VStr s => s
  | .VBool true => "True"
  | .VBool false => "False"
  | .VInt n => toString n
  | .VNone => "None"

/-- Python `==` on the modelled value domain: strings compare by
content, booleans compare with integers numerically (`True == 1`,
`False == 0`), `None` equals only `None`, and values of unrelated kinds
are unequal. -/
def pyEq : Value → Value → Bool
  | .VStr a, .VStr b => a == b
  | .VBool a, .VBool b => a == b
  | .VInt a, .VInt b => a == b
  | .VBool a, .VInt b => (if a then (1 : Int) else 0) == b
  | .VInt a, .VBool b => a == (if b then (1 : Int) else 0)
  | .VNone, .VNone => true
  | _, _ => false

/-- ASCII upper-casing of one character, modelling Python `str.upper`
on the ASCII literals used by the repository. -/
def upChar (c : Char) : Char :=
  if 97 ≤ c.toNat ∧ c.toNat ≤ 122 then Char.ofNat (c.toNat - 32) else c

/-- ASCII upper-casing of a string (Python `str.upper`). -/
def strUpper (s : String) : String := String.mk (s.toList.map upChar)

/-- Whitespace test used when trimming numeric strings. -/
def isSpaceChar (c : Char) : Bool := c = ' ' || c = '\t' || c = '\n' || c = '\r'

/-- Strip leading and trailing whitespace from a character list. -/
def trimChars (cs : List Char) : List Char :=
  ((cs.dropWhile isSpaceChar).reverse.dropWhile isSpaceChar).reverse

/-- Value of a list of decimal digit characters. -/
def digitsVal (l : List Char) : Nat := l.foldl (fun a c => a * 10 + (c.toNat - 48)) 0

/-- Decimal digit test and value (characters 0 to 9). -/
def toDigit (c : Char) : Option Nat :=
  if 48 ≤ c.toNat ∧ c.toNat ≤ 57 then some (c.toNat - 48) else none

/-- Unsigned decimal literal of the form digits, digits dot digits, or
dot digits, as accepted by the float parsing behind
`pd.to_numeric(..., errors="coerce")` (lines 122, 182, 238 of the
source).  Exponent notation is not modelled; it does not occur in the
repository data paths. -/
def parseUnsignedDec (cs : List Char) : Option ℚ :=
  let ds := cs.takeWhile (fun c => (toDigit c).isSome)
  let rest := cs.dropWhile (fun c => (toDigit c).isSome)
  match rest with
  | [] => if ds = [] then none else some ((digitsVal ds : ℚ))
  | '.' :: rest2 =>
    let fs := rest2.takeWhile (fun c => (toDigit c).isSome)
    if rest2.dropWhile (fun c => (toDigit c).isSome) = [] ∧ (ds ≠ [] ∨ fs ≠ []) then
      some ((digitsVal (ds ++ fs) : ℚ) / (10 : ℚ) ^ fs.length)
    else none
  | _ => none

/-- Tolerant numeric coercion, modelling
`pd.to_numeric(series, errors="coerce")` applied to one cell: numbers
pass through, numeric strings parse, booleans count as one and zero,
and everything else becomes NaN, modelled as `none`. -/
def coerceNumber (v : Value) : Option ℚ :=
  match v with
  | .VStr s =>
    match trimChars s.toList with
    | '-' :: rest => (parseUnsignedDec rest).map (fun q => -q)
    | '+' :: rest => parseUnsignedDec rest
    | cs => parseUnsignedDec cs
  | .VInt n => some (n : ℚ)
  | .VBool b => some (if b then 1 else 0)
  | .VNone => none

/-- Mean of a list of rationals (pandas `Series.mean` over the values
that are not NaN). -/
def listMean (l : List ℚ) : ℚ := l.sum / (l.length : ℚ)

/-- First maximal run of decimal digits in a character list, modelling
the regex extraction `.str.extract("(\d+)")` at lines 134 and 381. -/
def firstRun : List Char → Option (List Char)
  | [] => none
  | c :: rest =>
    if (toDigit c).isSome then some (c :: rest.takeWhile (fun x => (toDigit x).isSome))
    else firstRun rest

/-- Minutes embedded in a free-text runtime cell: the first run of
digits, absent when the text has none. -/
def extractMinutes (s : String) : Option Nat := (firstRun s.toList).map digitsVal

/-- Python `series.mean()` guarded as in `safe_numeric_mean`
(lines 178 to 186): `None` for an empty series, `None` when no value
is numerically coercible, otherwise the mean of the coercible ones. -/
def safe_numeric_mean (series : List Value) : Option ℚ :=
  if series = [] then none
  else
    let nums := (series.map coerceNumber).filterMap id
    if nums ≠ [] then some (listMean nums) else none

/-!
Date handling.  The source parses watch dates by trying
`datetime.strptime` with the formats `%m-%d-%Y`, `%Y-%m-%d`, `%m/%d/%Y`
in that fixed order (lines 615 and 805), and stores watch dates with
`strftime("%m-%d-%Y")` (line 632).  CPython strptime compiles a format
to a regex in which `%m` and `%d` match one or two digits greedily with
backtracking and `%Y` matches one to four digits; after a full-string
match the field values are validated by the `datetime` constructor.
-/

/-- Calendar date: year, month, day. -/
structure PDate where
  y : Nat
  m : Nat
  d : Nat
deriving DecidableEq

/-- Candidate parses of a leading run of at most `k` digits, longest
first, mirroring a greedy backtracking regex group `\d{1,k}`.  `acc` is
the value of digits already consumed. -/
def numCands : Nat → Nat → List Char → List (Nat × List Char)
  | 0, _, _ => []
  | _ + 1, _, [] => []
  | k + 1, acc, c :: rest =>
    match toDigit c with
    | none => []
    | some d =>
      let acc2 := acc * 10 + d
      match k with
      | 0 => [(acc2, rest)]
      | k2 + 1 => (numCands (k2 + 1) acc2 rest) ++ [(acc2, rest)]

/-- First candidate on which the continuation succeeds (regex
backtracking order). -/
def pickFirst {α β : Type} (f : α → Option β) : List α → Option β
  | [] => none
  | a :: as =>
    match f a with
    | some b => some b
    | none => pickFirst f as

/-- Consume one expected literal character. -/
def expectChar (c : Char) : List Char → Option (List Char)
  | [] => none
  | x :: rest => if x = c then some rest else none

/-- Full-string match of the pattern month, separator, day, separator,
year, with the greedy backtracking of the strptime regex. -/
def parseMDY (sep : Char) (cs : List Char) : Option (Nat × Nat × Nat) :=
  pickFirst (fun mc =>
    (expectChar sep mc.2).bind (fun r2 =>
      pickFirst (fun dc =>
        (expectChar sep dc.2).bind (fun r4 =>
          pickFirst (fun yc =>
            if yc.2 = [] then some (mc.1, dc.1, yc.1) else none)
            (numCands 4 0 r4)))
        (numCands 2 0 r2)))
    (numCands 2 0 cs)

/-- Full-string match of the pattern year, separator, month, separator,
day. -/
def parseYMD (sep : Char) (cs : List Char) : Option (Nat × Nat × Nat) :=
  pickFirst (fun yc =>
    (expectChar sep yc.2).bind (fun r2 =>
      pickFirst (fun mc =>
        (expectChar sep mc.2).bind (fun r4 =>
          pickFirst (fun dc =>
            if dc.2 = [] then some (mc.1, dc.1, yc.1) else none)
            (numCands 2 0 r4)))
        (numCands 2 0 r2)))
    (numCands 4 0 cs)

/-- Gregorian leap year test. -/
def isLeap (y : Nat) : Bool := y % 4 = 0 && (y % 100 ≠ 0 || y % 400 = 0)

/-- Days in a month, as validated by the Python `datetime` constructor. -/
def daysInMonth (y m : Nat) : Nat :=
  if m = 2 then (if isLeap y then 29 else 28)
  else if m = 4 ∨ m = 6 ∨ m = 9 ∨ m = 11 then 30
  else 31

/-- Validation performed by the `datetime` constructor after a strptime
regex match: years one to 9999, months one to twelve, days within the
month. -/
def mkDate (y m d : Nat) : Option PDate :=
  if 1 ≤ y ∧ y ≤ 9999 ∧ 1 ≤ m ∧ m ≤ 12 ∧ 1 ≤ d ∧ d ≤ daysInMonth y m then
    some ⟨y, m, d⟩
  else none

/-- One `datetime.strptime(text, "%m<sep>%d<sep>%Y")` attempt. -/
def strptimeMDY (sep : Char) (s : String) : Option PDate :=
  match parseMDY sep s.toList with
  | none => none
  | some (m, d, y) => mkDate y m d

/-- One `datetime.strptime(text, "%Y-%m-%d")` attempt. -/
def strptimeYMD (s : String) : Option PDate :=
  match parseYMD '-' s.toList with
  | none => none
  | some (m, d, y) => mkDate y m d

/-- Tolerant date coercion: the for-loop over the formats
`["%m-%d-%Y", "%Y-%m-%d", "%m/%d/%Y"]` at lines 615 and 805, returning
the first successful parse and absent when every format fails. -/
def coerceDate (s : String) : Option PDate :=
  match strptimeMDY '-' s with
  | some dt => some dt
  | none =>
    match strptimeYMD s with
    | some dt => some dt
    | none => strptimeMDY '/' s

/-- Digit character for a value below ten. -/
def digCh : Nat → Char
  | 0 => '0'
  | 1 => '1'
  | 2 => '2'
  | 3 => '3'
  | 4 => '4'
  | 5 => '5'
  | 6 => '6'
  | 7 => '7'
  | 8 => '8'
  | 9 => '9'
  | _ => 'X'

/-- Two-digit zero-padded decimal rendering (strftime `%m`, `%d`). -/
def pad2chars (n : Nat) : List Char := [digCh (n / 10), digCh (n % 10)]

/-- Four-digit decimal rendering of a four-digit year (strftime `%Y`). -/
def pad4chars (n : Nat) : List Char :=
  [digCh (n / 1000), digCh (n / 100 % 10), digCh (n / 10 % 10), digCh (n % 10)]

/-- Watch-date storage format `new_date.strftime("%m-%d-%Y")`
(line 632). -/
def formatMMDDYYYY (dt : PDate) : String :=
  String.mk (pad2chars dt.m ++ ['-'] ++ pad2chars dt.d ++ ['-'] ++ pad4chars dt.y)

/-- Dates producible by the date picker: a real calendar date with a
four-digit year. -/
def ValidDate (dt : PDate) : Prop :=
  1000 ≤ dt.y ∧ dt.y ≤ 9999 ∧ 1 ≤ dt.m ∧ dt.m ≤ 12 ∧ 1 ≤ dt.d ∧ dt.d ≤ daysInMonth dt.y dt.m

instance (dt : PDate) : Decidable (ValidDate dt) := by
  unfold ValidDate
  infer_instance

/-!
Episode tables and the show loader (`load_all_show_data`, lines 88 to
159).  A record is the mapping produced by `get_all_records` for one
row: column name to raw value, keyed by the header row of the sheet,
with short rows padded by empty strings.  A table is the DataFrame
built from those records.
-/

/-- One episode record: column name to raw value, in header order. -/
abbrev Record := List (String × Value)

/-- An episode table: the ordered records of one sheet. -/
abbrev Table := List Record

/-- Column names of a record. -/
def recKeys (r : Record) : List String := r.map Prod.fst

/-- Lookup of a column in a record, modelling Python dict access. -/
def lookupRec (r : Record) (c : String) : Option Value :=
  (List.find? (fun p => p.1 == c) r).map Prod.snd

/-- Column access defaulting to a missing value, modelling
`row.get(name)` on a loaded record. -/
def lookupVal (r : Record) (c : String) : Value := (lookupRec r c).getD Value.VNone

/-- Columns of a table (`df.columns`): the keys of its records, which
all coincide with the sheet header after loading. -/
def tblColumns (t : Table) : List String :=
  match t with
  | [] => []
  | r :: _ => recKeys r

/-- Values of one column across the table (`df[name]`). -/
def colValues (t : Table) (c : String) : List Value :=
  t.filterMap (fun r => lookupRec r c)

/-- Pad a list on the right up to length `n`. -/
def padTo {α : Type} (l : List α) (n : Nat) (x : α) : List α :=
  l ++ List.replicate (n - l.length) x

/-- Add a whole column with one constant value when it is absent,
modelling `if name not in df.columns: df[name] = value`
(lines 144 to 152). -/
def addColIfAbsent (t : Table) (c : String) (v : Value) : Table :=
  if c ∈ tblColumns t then t else t.map (fun r => r ++ [(c, v)])

/-- Fill the four tracking columns with their defaults when absent
(lines 145 to 152): `Watched = "No"`, `Personal Rating = None`,
`Favorite = "No"`, `Watch Date = None`. -/
def addDefaults (t : Table) : Table :=
  addColIfAbsent
    (addColIfAbsent
      (addColIfAbsent
        (addColIfAbsent t "Watched" (Value.VStr "No"))
        "Personal Rating" Value.VNone)
      "Favorite" (Value.VStr "No"))
    "Watch Date" Value.VNone

/-- Distinct season count `df["Season"].nunique() if "Season" in
df.columns else 0` (line 116).  Note the zero, not `None`, for a
missing column. -/
def seasonsOf (t : Table) : Nat :=
  if "Season" ∈ tblColumns t then (colValues t "Season").dedup.length else 0

/-- Average rating of a table (lines 120 to 128): numeric coercion of
the `Rating` column with errors becoming NaN, `None` when the column is
absent or contains no coercible number, otherwise the mean over the
coercible values. -/
def averageRatingOf (t : Table) : Option ℚ :=
  if "Rating" ∈ tblColumns t then
    let nums := ((colValues t "Rating").map coerceNumber).filterMap id
    if nums ≠ [] then some (listMean nums) else none
  else none

/-- Digit-run extraction of one runtime cell: the `.str.extract`
behaviour at line 134, which yields NaN for a non-string element. -/
def runtimeMinutes (v : Value) : Option Nat :=
  match v with
  | .VStr s => extractMinutes s
  | _ => none

/-- Longest runtime of a table (lines 130 to 142): first digit run of
each `Runtime` cell that is a string, `None` when the column is absent
or no cell yields a digit run (the AttributeError fallback of the
source for a non-string column also lands on `None`), otherwise the
maximum. -/
def longestEpisodeOf (t : Table) : Option Nat :=
  if "Runtime" ∈ tblColumns t then
    let runs := ((colValues t "Runtime").map runtimeMinutes).filterMap id
    if runs ≠ [] then runs.max? else none
  else none

/-- Per-show metadata computed by the loader (lines 112 to 142). -/
structure ShowMeta where
  title : Value
  total_episodes : Nat
  seasons : Nat
  average_rating : Option ℚ
  longest_episode : Option Nat
deriving DecidableEq

/-- One worksheet of the backing store as seen by the loader: its
title plus the results of the two fetches the loader performs, either
of which may fail with a transport or parse error. -/
structure SheetData where
  title : String
  headerRes : Except String (List String)
  recordsRes : Except String (List (List Value))

/-- Records of a sheet as built by `get_all_records`: each raw row
zipped with the header, short rows padded with empty strings. -/
def sheetRecords (header : List String) (rows : List (List Value)) : Table :=
  rows.map (fun row => header.zip (padTo row header.length (Value.VStr "")))

/-- The loader body for one sheet (lines 99 to 154), the part guarded
by the per-sheet try: fetch the header, skip the sheet when the header
is empty or lacks `Show Name`, fetch the records, skip when there are
none, compute metadata from the raw table, then fill tracking-column
defaults.  An error in either fetch escapes as the exception that the
caller catches. -/
def processSheet (s : SheetData) : Except String (Option (Table × Option ShowMeta)) :=
  match s.headerRes with
  | .error e => .error e
  | .ok header =>
    if header ≠ [] ∧ "Show Name" ∈ header then
      match s.recordsRes with
      | .error e => .error e
      | .ok rows =>
        let data := sheetRecords header rows
        if data = [] then .ok none
        else
          let metaOpt :=
            if "Show Name" ∈ tblColumns data then
              some { title := lookupVal (data.headD []) "Show Name"
                     total_episodes := data.length
                     seasons := seasonsOf data
                     average_rating := averageRatingOf data
                     longest_episode := longestEpisodeOf data : ShowMeta }
            else none
          .ok (some (addDefaults data, metaOpt))
    else .ok none

/-- The per-sheet loop of `load_all_show_data` (lines 98 to 157): a
failing sheet is caught, adds a warning, and the loop continues with
the remaining sheets. -/
def loadSheets : List SheetData → (List (String × Table)) × (List (String × ShowMeta)) × List String
  | [] => ([], [], [])
  | s :: rest =>
    let acc := loadSheets rest
    match processSheet s with
    | .error _ => (acc.1, acc.2.1, ("Failed loading sheet " ++ s.title) :: acc.2.2)
    | .ok none => acc
    | .ok (some (tbl, metaOpt)) =>
      ((s.title, tbl) :: acc.1,
       (match metaOpt with
        | some meta => (s.title, meta) :: acc.2.1
        | none => acc.2.1),
       acc.2.2)

/-- The spreadsheet handle returned by `connect_sheets`: its one
operation used by the loader is the worksheet enumeration
`spreadsheet.worksheets()` of line 98, a network call that can fail
with a transport error.  That call sits outside every try block of the
loader. -/
structure Spreadsheet where
  worksheetsRes : Except String (List SheetData)

/-- The whole loader (lines 88 to 159): when `connect_sheets` yields no
handle the result is the empty pair (lines 90 to 91); otherwise the
worksheet enumeration of line 98 runs outside every try, so its
failure escapes `load_all_show_data` as an exception; on success every
sheet is processed with per-sheet error isolation.  The third
component carries the non-fatal warnings surfaced to the caller. -/
def load_all_show_data (store : Option Spreadsheet) :
    Except String ((List (String × Table)) × (List (String × ShowMeta)) × List String) :=
  match store with
  | none => .ok ([], [], [])
  | some sp =>
    match sp.worksheetsRes with
    | .error e => .error e
    | .ok sheets => .ok (loadSheets sheets)

/-- Successful outcome of one sheet: the table entry it contributes. -/
def tableOutcome (s : SheetData) : Option (String × Table) :=
  match processSheet s with
  | .ok (some (tbl, _)) => some (s.title, tbl)
  | _ => none

/-- Warning outcome of one sheet: the message it contributes when its
processing raises. -/
def warnOutcome (s : SheetData) : Option String :=
  match processSheet s with
  | .error _ => some ("Failed loading sheet " ++ s.title)
  | _ => none

/-!
Tolerant boolean handling of the `Watched` field.  The filter masks at
lines 487 to 495 use pandas elementwise comparison (Python `==`), the
progress counter at lines 219 to 222 uses `is True` identity, and the
tracker normalisation at lines 560 to 565 rewrites the current status
before display.
-/

/-- Watched mask of lines 487 to 489: literal `Yes`, or upper-cased
string form among TRUE, YES, 1, or pandas equality with `True`. -/
def watchedMask (v : Value) : Bool :=
  pyEq v (Value.VStr "Yes")
    || (["TRUE", "YES", "1"].contains (strUpper (pyStr v)))
    || pyEq v (Value.VBool true)

/-- Unwatched mask of lines 493 to 495: literal `No`, or upper-cased
string form among FALSE, NO, 0, or pandas equality with `False`. -/
def unwatchedMask (v : Value) : Bool :=
  pyEq v (Value.VStr "No")
    || (["FALSE", "NO", "0"].contains (strUpper (pyStr v)))
    || pyEq v (Value.VBool false)

/-- Watched test of the progress counters at lines 219 to 221 and 515
to 517, whose last disjunct is the identity test `watched is True`. -/
def isWatchedRow (v : Value) : Bool :=
  pyEq v (Value.VStr "Yes")
    || (["TRUE", "YES", "1"].contains (strUpper (pyStr v)))
    || decide (v = Value.VBool true)

/-- Status normalisation of lines 560 to 565: a boolean becomes the
literal `Yes` or `No`; a value whose upper-cased string form is TRUE,
YES or 1 becomes the literal `Yes`; anything else is kept unchanged. -/
def normalizeStatus (v : Value) : Value :=
  match v with
  | .VBool b => Value.VStr (if b then "Yes" else "No")
  | _ =>
    if ["TRUE", "YES", "1"].contains (strUpper (pyStr v)) then Value.VStr "Yes" else v

/-- The checkbox result of lines 567 to 571: the stored status string
for a watched checkbox state. -/
def newStatusOf (b : Bool) : String := if b then "Yes" else "No"

/-- Visibility of the date input (line 605): the episode is newly
watched or was already recorded as watched. -/
def showDateFlag (new_status : String) (current : Value) : Bool :=
  (new_status == "Yes") || pyEq (normalizeStatus current) (Value.VStr "Yes")

/-- The In Progress branch of the watch-status filter (lines 497 to
498): exact pandas equality with the literal string `In Progress`,
with no boolean coercion. -/
def inProgressFilter (t : Table) : Table :=
  t.filter (fun r => pyEq (lookupVal r "Watched") (Value.VStr "In Progress"))

/-!
The episode update writer (lines 637 to 682).  The backing store is a
grid of cells addressed by one-based row and column; absent cells read
as empty strings and writes extend the grid as needed.  Each field
write can fail with a transport error; in the source all four
`update_cell` calls live in one try block, so an exception aborts the
remaining writes and the accumulated update list is replaced by an
error message.
-/

/-- The backing sheet as a grid of rows of cells. -/
abbrev Grid := List (List Value)

/-- Cell read at one-based row and column; absent cells are empty. -/
def getCell (g : Grid) (r c : Nat) : Value :=
  (((g[r - 1]?).getD [])[c - 1]?).getD (Value.VStr "")

/-- Write one cell of a row, padding the row when it is short. -/
def setInRow (row : List Value) (c : Nat) (v : Value) : List Value :=
  (padTo row c (Value.VStr "")).set (c - 1) v

/-- Cell write at one-based row and column, extending the grid when
needed (gspread `update_cell`). -/
def setCell (g : Grid) (r c : Nat) (v : Value) : Grid :=
  (padTo g r []).set (r - 1) (setInRow ((padTo g r []).getD (r - 1) []) c v)

/-- Zero-based position of a column name in a header row, modelling
`header_row.index(name) if name in header_row else None`
(lines 651 to 654). -/
def colIndex (header : List String) (name : String) : Option Nat :=
  match header with
  | [] => none
  | h :: rest => if h = name then some 0 else (colIndex rest name).map (fun i => i + 1)

/-- One guarded field write of lines 656 to 674 under exception
semantics: once an error has occurred nothing further runs; an absent
column is skipped silently; otherwise the cell is written (or the
transport failure recorded) and the applied-update list extended. -/
def writeField (fails : Nat → Nat → Bool) (row : Nat) (col : Option Nat) (v : Value)
    (label : String) (st : Grid × List String × Option String) :
    Grid × List String × Option String :=
  match st.2.2 with
  | some _ => st
  | none =>
    match col with
    | none => st
    | some c =>
      if fails row c then (st.1, st.2.1, some "update failed")
      else (setCell st.1 row c v, st.2.1 ++ [label], none)

/-- The update block of lines 643 to 674: target row `idx + 2`, column
resolution by header lookup, then the four field writes in order,
sharing one exception scope.  `fails` tells which cell writes raise a
transport error. -/
def episodeUpdate (fails : Nat → Nat → Bool) (header : List String) (g : Grid)
    (idx : Nat) (new_status new_rating : String) (new_favorite : Bool)
    (show_date : Bool) (formatted_date : String) :
    Grid × List String × Option String :=
  let sheet_row := idx + 2
  let watched_col := (colIndex header "Watched").map (fun i => i + 1)
  let rating_col := (colIndex header "Personal Rating").map (fun i => i + 1)
  let favorite_col := (colIndex header "Favorite").map (fun i => i + 1)
  let date_col := (colIndex header "Watch Date").map (fun i => i + 1)
  let s0 : Grid × List String × Option String := (g, [], none)
  let s1 := writeField fails sheet_row watched_col (Value.VStr new_status)
    ("Watched=" ++ new_status) s0
  let s2 := writeField fails sheet_row rating_col (Value.VStr new_rating)
    ("Rating=" ++ new_rating) s1
  let s3 := writeField fails sheet_row favorite_col
    (Value.VStr (if new_favorite then "Yes" else "No"))
    ("Favorite=" ++ (if new_favorite then "Yes" else "No")) s2
  writeField fails sheet_row (if show_date then date_col else none)
    (Value.VStr formatted_date) ("Date=" ++ formatted_date) s3

/-- What the operator is shown after the update block (lines 676 to
682): the applied-update list on success, only an error otherwise. -/
def trackerResult (st : Grid × List String × Option String) : Except String (List String) :=
  match st.2.2 with
  | some e => .error e
  | none => .ok st.2.1

/-- The update list produced when every attempted write succeeds: one
entry per field whose column exists in the header, the date field only
when the date input was visible. -/
def appliedLabels (header : List String) (sd : Bool) (ns nr : String) (nf : Bool)
    (fd : String) : List String :=
  (if (colIndex header "Watched").isSome then ["Watched=" ++ ns] else [])
    ++ (if (colIndex header "Personal Rating").isSome then ["Rating=" ++ nr] else [])
    ++ (if (colIndex header "Favorite").isSome then
          ["Favorite=" ++ (if nf then "Yes" else "No")] else [])
    ++ (if (colIndex header "Watch Date").isSome && sd then ["Date=" ++ fd] else [])

/-- A transport layer in which no write fails. -/
def noFail : Nat → Nat → Bool := fun _ _ => false

/-!
Concrete fixtures used by the example conjuncts, witnesses and
counterexamples.
-/

/-- A header with the standard column order: the four tracking columns
sit at one-based positions 6 to 9. -/
def hdr1 : List String :=
  ["Show Name", "Season", "Episode", "Episode Title", "Rating",
   "Watched", "Personal Rating", "Favorite", "Watch Date"]

/-- A permuted header with `Watched` at one-based position 2, to
exhibit resolution by name rather than by fixed position. -/
def hdr2 : List String :=
  ["Show Name", "Watched", "Personal Rating", "Favorite", "Watch Date",
   "Season", "Episode", "Episode Title", "Rating"]

/-- A four-row, nine-column grid of empty cells. -/
def grid1 : Grid := List.replicate 4 (List.replicate 9 (Value.VStr ""))

/-- A transport layer in which exactly the write to row 3, column 6
(the `Watched` cell of the episode at position 1 under `hdr1`)
fails. -/
def failsWatched : Nat → Nat → Bool := fun r c => r == 3 && c == 6

/-- A table whose `Watched` values are Yes, In Progress, TRUE, No. -/
def demoWatchTable : Table :=
  [[("Episode", Value.VInt 1), ("Watched", Value.VStr "Yes")],
   [("Episode", Value.VInt 2), ("Watched", Value.VStr "In Progress")],
   [("Episode", Value.VInt 3), ("Watched", Value.VStr "TRUE")],
   [("Episode", Value.VInt 4), ("Watched", Value.VStr "No")]]

/-- A sheet whose header has `Show Name` but no `Season` column. -/
def demoSheetNoSeason : SheetData :=
  { title := "Demo"
    headerRes := .ok ["Show Name", "Episode Title"]
    recordsRes := .ok [[Value.VStr "Demo Show", Value.VStr "Pilot"]] }

/-- A sheet whose processing fails at the records fetch. -/
def demoSheetBroken : SheetData :=
  { title := "Broken"
    headerRes := .ok ["Show Name", "Episode Title"]
    recordsRes := .error "transport error" }

/-- A connected spreadsheet handle whose worksheet enumeration fails
with a transport error. -/
def demoStoreEnumFail : Spreadsheet := { worksheetsRes := .error "transport error" }

/-- A connected spreadsheet handle holding one sheet. -/
def demoStoreOk : Spreadsheet := { worksheetsRes := .ok [demoSheetNoSeason] }

/-!
Theorems.  Each claim of the specification review is settled by one
theorem below, preceded by helper lemmas where needed.
-/

/-- C7: tolerant boolean coercion of the `Watched` field classifies a
value as watched exactly when it equals the literal `Yes`, its
upper-cased string form is TRUE, YES or 1, or it is the boolean true;
as unwatched under the symmetric set (`No`, FALSE, NO, 0, boolean
false); the progress-counter variant (identity test `is True`) agrees
with the pandas mask on the whole value domain; `In Progress` and the
empty string classify as neither; and the classification is a total
function, so it never raises on non-string input. -/
theorem c7_boolean_coercion :
    (∀ v : Value,
      (watchedMask v = true ↔
        (v = Value.VStr "Yes" ∨ strUpper (pyStr v) ∈ ["TRUE", "YES", "1"]
          ∨ v = Value.VBool true))
      ∧ isWatchedRow v = watchedMask v
      ∧ (unwatchedMask v = true ↔
        (v = Value.VStr "No" ∨ strUpper (pyStr v) ∈ ["FALSE", "NO", "0"]
          ∨ v = Value.VBool false)))
    ∧ watchedMask (Value.VStr "In Progress") = false
    ∧ unwatchedMask (Value.VStr "In Progress") = false
    ∧ watchedMask (Value.VStr "") = false
    ∧ unwatchedMask (Value.VStr "") = false := by
  refine ⟨fun v => ⟨?_, ?_, ?_⟩, by decide, by decide, by decide, by decide⟩
  · cases v with
    | VStr s => simp [watchedMask, pyEq, List.elem_iff]
    | VBool b => cases b <;> decide
    | VInt n =>
      by_cases h : n = 1
      · subst h; decide
      · simp [watchedMask, pyEq, List.elem_iff, h]
    | VNone => decide
  · cases v with
    | VStr s => simp [isWatchedRow, watchedMask, pyEq]
    | VBool b => cases b <;> decide
    | VInt n =>
      by_cases h : n = 1
      · subst h; decide
      · simp [isWatchedRow, watchedMask, pyEq, h]
    | VNone => decide
  · cases v with
    | VStr s => simp [unwatchedMask, pyEq, List.elem_iff]
    | VBool b => cases b <;> decide
    | VInt n =>
      by_cases h : n = 0
      · subst h; decide
      · simp [unwatchedMask, pyEq, List.elem_iff, h]
    | VNone => decide

/-- C9: the In Progress watch-status filter keeps exactly the records
whose `Watched` value equals the literal string `In Progress`; on a
table with `Watched` values Yes, In Progress, TRUE, No it returns
precisely the single In Progress row, so no tolerant boolean coercion
is applied for this status (the TRUE row is excluded). -/
theorem c9_inprogress_filter :
    (∀ (t : Table) (r : Record),
      r ∈ inProgressFilter t ↔
        (r ∈ t ∧ pyEq (lookupVal r "Watched") (Value.VStr "In Progress") = true))
    ∧ inProgressFilter demoWatchTable =
        [[("Episode", Value.VInt 2), ("Watched", Value.VStr "In Progress")]] := by
  exact ⟨fun t r => List.mem_filter, by decide⟩

/-- C8: date coercion tries the three formats in the fixed order
month-dash-day-dash-year, year-dash-month-dash-day,
month-slash-day-slash-year, returning the first success and absent
when all fail or the input is empty; the ambiguous string 01-02-2024
parses as January 2, 2024 through the first format, while 2024-01-02
fails the first format and parses as the same calendar date through
the second. -/
theorem c8_date_priority :
    (∀ (s : String) (dt : PDate), strptimeMDY '-' s = some dt → coerceDate s = some dt)
    ∧ (∀ (s : String) (dt : PDate),
        strptimeMDY '-' s = none → strptimeYMD s = some dt → coerceDate s = some dt)
    ∧ (∀ s : String,
        strptimeMDY '-' s = none → strptimeYMD s = none → coerceDate s = strptimeMDY '/' s)
    ∧ coerceDate "" = none
    ∧ strptimeMDY '-' "01-02-2024" = some ⟨2024, 1, 2⟩
    ∧ coerceDate "01-02-2024" = some ⟨2024, 1, 2⟩
    ∧ strptimeMDY '-' "2024-01-02" = none
    ∧ coerceDate "2024-01-02" = some ⟨2024, 1, 2⟩ := by
  refine ⟨?_, ?_, ?_, by decide, by decide, by decide, by decide, by decide⟩
  · intro s dt h; simp [coerceDate, h]
  · intro s dt h1 h2; simp [coerceDate, h1, h2]
  · intro s h1 h2; simp [coerceDate, h1, h2]

/-- Witness for C8 at a concrete stored date string. -/
theorem c8_witness : coerceDate "03-15-2024" = some ⟨2024, 3, 15⟩ :=
  c8_date_priority.1 "03-15-2024" ⟨2024, 3, 15⟩ (by decide)

/-- C3 counterexample: on a sheet whose header lacks a `Season` column
the loader metadata carries the number zero in its seasons field
(line 116 of the source reads `df["Season"].nunique() if "Season" in
df.columns else 0`), not an absent marker; the claim that every
metadata field with a missing source column is `None` and never zero
is therefore false for the seasons field.  The average-rating and
longest-episode fields of the same sheet do come out absent. -/
theorem c3_counterexample :
    processSheet demoSheetNoSeason =
      Except.ok (some
        ([[("Show Name", Value.VStr "Demo Show"), ("Episode Title", Value.VStr "Pilot"),
           ("Watched", Value.VStr "No"), ("Personal Rating", Value.VNone),
           ("Favorite", Value.VStr "No"), ("Watch Date", Value.VNone)]],
         some { title := Value.VStr "Demo Show", total_episodes := 1, seasons := 0,
                average_rating := none, longest_episode := none })) := by
  rfl

/-- C3 amended: for every loaded show the `average_rating` and
`longest_episode` metadata fields are absent, never zero and never an
exception, when their source column is missing or wholly
non-coercible; in particular the average over a `Rating` column with
no coercible numbers is absent, not zero (likewise for
`safe_numeric_mean`).  The `seasons` field, by contrast, is the number
zero, not an absent marker, when the `Season` column is missing. -/
theorem c3_metadata_absent :
    (∀ t : Table, "Rating" ∉ tblColumns t → averageRatingOf t = none)
    ∧ (∀ t : Table, (∀ v ∈ colValues t "Rating", coerceNumber v = none) →
        averageRatingOf t = none)
    ∧ (∀ t : Table, "Runtime" ∉ tblColumns t → longestEpisodeOf t = none)
    ∧ (∀ t : Table, (∀ v ∈ colValues t "Runtime", runtimeMinutes v = none) →
        longestEpisodeOf t = none)
    ∧ (∀ t : Table, "Season" ∉ tblColumns t → seasonsOf t = 0)
    ∧ (∀ series : List Value, (∀ v ∈ series, coerceNumber v = none) →
        safe_numeric_mean series = none) := by
  refine ⟨?_, ?_, ?_, ?_, ?_, ?_⟩
  · intro t h; simp [averageRatingOf, h]
  · intro t h
    by_cases hc : "Rating" ∈ tblColumns t
    · have hnil : ((colValues t "Rating").map coerceNumber).filterMap id = [] := by
        rw [List.filterMap_eq_nil_iff]
        intro a ha
        rw [List.mem_map] at ha
        obtain ⟨v, hv, rfl⟩ := ha
        exact h v hv
      simp [averageRatingOf, hc, hnil]
    · simp [averageRatingOf, hc]
  · intro t h; simp [longestEpisodeOf, h]
  · intro t h
    by_cases hc : "Runtime" ∈ tblColumns t
    · have hnil : ((colValues t "Runtime").map runtimeMinutes).filterMap id = [] := by
        rw [List.filterMap_eq_nil_iff]
        intro a ha
        rw [List.mem_map] at ha
        obtain ⟨v, hv, rfl⟩ := ha
        exact h v hv
      simp [longestEpisodeOf, hc, hnil]
    · simp [longestEpisodeOf, hc]
  · intro t h; simp [seasonsOf, h]
  · intro series h
    by_cases hs : series = []
    · simp [safe_numeric_mean, hs]
    · have hnil : (series.map coerceNumber).filterMap id = [] := by
        rw [List.filterMap_eq_nil_iff]
        intro a ha
        rw [List.mem_map] at ha
        obtain ⟨v, hv, rfl⟩ := ha
        exact h v hv
      simp [safe_numeric_mean, hs, hnil]

/-- Witness for C3 on a table whose `Rating` column holds only empty
strings. -/
theorem c3_witness :
    averageRatingOf
      [[("Show Name", Value.VStr "A"), ("Rating", Value.VStr "")],
       [("Show Name", Value.VStr "A"), ("Rating", Value.VStr "")]] = none :=
  c3_metadata_absent.2.1
    [[("Show Name", Value.VStr "A"), ("Rating", Value.VStr "")],
     [("Show Name", Value.VStr "A"), ("Rating", Value.VStr "")]] (by decide)

/-- C5 counterexample: the claim says the show loader never raises and
that an unreachable store yields the empty pair; but the worksheet
enumeration `spreadsheet.worksheets()` at line 98 sits outside every
try block of `load_all_show_data` (and a transport failure after a
successful, cached `connect_sheets` surfaces exactly there), so on a
connected handle whose enumeration fails the loader propagates the
exception instead of returning any pair. -/
theorem c5_counterexample :
    load_all_show_data (some demoStoreEnumFail) = Except.error "transport error" := rfl

/-- C5 amended: the loader returns the empty pair when no connection
handle is available; a failure of one sheet is caught, adds a
non-fatal warning, and leaves every other sheet processed, so the
contributed tables are exactly those of the sheets whose processing
succeeds with data; but a failure of the worksheet enumeration itself
(line 98, outside every try) escapes `load_all_show_data` as an
exception. -/
theorem c5_loader_isolation :
    load_all_show_data none = Except.ok ([], [], [])
    ∧ (∀ (sp : Spreadsheet) (e : String), sp.worksheetsRes = Except.error e →
        load_all_show_data (some sp) = Except.error e)
    ∧ (∀ (sp : Spreadsheet) (sheets : List SheetData), sp.worksheetsRes = Except.ok sheets →
        load_all_show_data (some sp) = Except.ok (loadSheets sheets))
    ∧ (loadSheets [demoSheetBroken, demoSheetNoSeason]).1.length = 1
    ∧ (loadSheets [demoSheetBroken, demoSheetNoSeason]).2.2 = ["Failed loading sheet Broken"]
    ∧ ∀ sheets : List SheetData,
        (loadSheets sheets).1 = sheets.filterMap tableOutcome
        ∧ (loadSheets sheets).2.2 = sheets.filterMap warnOutcome := by
  refine ⟨rfl, ?_, ?_, by decide, by decide, ?_⟩
  · intro sp e he
    simp [load_all_show_data, he]
  · intro sp sheets hs
    simp [load_all_show_data, hs]
  intro sheets
  induction sheets with
  | nil => exact ⟨rfl, rfl⟩
  | cons s rest ih =>
    cases hp : processSheet s with
    | error e =>
      refine ⟨?_, ?_⟩ <;> simp [loadSheets, hp, tableOutcome, warnOutcome, ih.1, ih.2]
    | ok o =>
      cases o with
      | none =>
        refine ⟨?_, ?_⟩ <;> simp [loadSheets, hp, tableOutcome, warnOutcome, ih.1, ih.2]
      | some pr =>
        obtain ⟨tbl, mo⟩ := pr
        refine ⟨?_, ?_⟩ <;> simp [loadSheets, hp, tableOutcome, warnOutcome, ih.1, ih.2]

/-- Witness for C5 on a concrete connected store with one sheet. -/
theorem c5_witness :
    load_all_show_data (some demoStoreOk) = Except.ok (loadSheets [demoSheetNoSeason]) :=
  c5_loader_isolation.2.2.1 demoStoreOk [demoSheetNoSeason] (by rfl)

/-- Digit characters decode to their value. -/
theorem toDigit_digCh {k : Nat} (h : k ≤ 9) : toDigit (digCh k) = some k := by
  interval_cases k <;> decide

/-- Month lengths never exceed 31. -/
theorem daysInMonth_le (y m : Nat) : daysInMonth y m ≤ 31 := by
  unfold daysInMonth
  split
  · split <;> omega
  · split <;> omega

/-- Candidates of a two-digit group in front of arbitrary text. -/
theorem numCands_two (a b : Nat) (rest : List Char) (ha : a ≤ 9) (hb : b ≤ 9) :
    numCands 2 0 (digCh a :: digCh b :: rest) =
      [(a * 10 + b, rest), (a, digCh b :: rest)] := by
  simp [numCands, toDigit_digCh ha, toDigit_digCh hb]

/-- Candidates of a four-digit group in front of arbitrary text. -/
theorem numCands_four (a b c d : Nat) (rest : List Char)
    (ha : a ≤ 9) (hb : b ≤ 9) (hc : c ≤ 9) (hd : d ≤ 9) :
    numCands 4 0 (digCh a :: digCh b :: digCh c :: digCh d :: rest) =
      [(((a * 10 + b) * 10 + c) * 10 + d, rest),
       ((a * 10 + b) * 10 + c, digCh d :: rest),
       (a * 10 + b, digCh c :: digCh d :: rest),
       (a, digCh b :: digCh c :: digCh d :: rest)] := by
  simp [numCands, toDigit_digCh ha, toDigit_digCh hb, toDigit_digCh hc, toDigit_digCh hd]

/-- The strptime month-day-year pattern on a padded two-two-four digit
rendering matches greedily and in full. -/
theorem parseMDY_ten (a b c d e f g h : Nat)
    (ha : a ≤ 9) (hb : b ≤ 9) (hc : c ≤ 9) (hd : d ≤ 9)
    (he : e ≤ 9) (hf : f ≤ 9) (hg : g ≤ 9) (hh : h ≤ 9) :
    parseMDY '-' [digCh a, digCh b, '-', digCh c, digCh d, '-',
                  digCh e, digCh f, digCh g, digCh h] =
      some (a * 10 + b, c * 10 + d, ((e * 10 + f) * 10 + g) * 10 + h) := by
  rw [parseMDY, numCands_two a b _ ha hb]
  simp [pickFirst, expectChar,
    numCands_two c d ['-', digCh e, digCh f, digCh g, digCh h] hc hd,
    numCands_four e f g h [] he hf hg hh]

/-- Round-trip core: strptime with the first format recovers any valid
date from its storage rendering. -/
theorem strptime_format_roundtrip (dt : PDate) (h : ValidDate dt) :
    strptimeMDY '-' (formatMMDDYYYY dt) = some dt := by
  obtain ⟨hy1, hy2, hm1, hm2, hd1, hd2⟩ := h
  have hd31 : dt.d ≤ 31 := le_trans hd2 (daysInMonth_le _ _)
  have hlist : (formatMMDDYYYY dt).toList =
      [digCh (dt.m / 10), digCh (dt.m % 10), '-',
       digCh (dt.d / 10), digCh (dt.d % 10), '-',
       digCh (dt.y / 1000), digCh (dt.y / 100 % 10),
       digCh (dt.y / 10 % 10), digCh (dt.y % 10)] := rfl
  rw [strptimeMDY, hlist,
    parseMDY_ten _ _ _ _ _ _ _ _ (by omega) (by omega) (by omega) (by omega)
      (by omega) (by omega) (by omega) (by omega)]
  have em : dt.m / 10 * 10 + dt.m % 10 = dt.m := by omega
  have ed : dt.d / 10 * 10 + dt.d % 10 = dt.d := by omega
  have ey : ((dt.y / 1000 * 10 + dt.y / 100 % 10) * 10 + dt.y / 10 % 10) * 10
      + dt.y % 10 = dt.y := by omega
  rw [em, ed, ey]
  show mkDate dt.y dt.m dt.d = some dt
  unfold mkDate
  rw [if_pos ⟨by omega, by omega, by omega, by omega, by omega, hd2⟩]

/-- C4: every watch date accepted from the date picker is stored in
the fixed format month-dash-day-dash-year, and the date coercion of a
subsequent load, which tries that format first, parses the stored
string back to the same calendar date. -/
theorem c4_watchdate_roundtrip :
    ∀ dt : PDate, ValidDate dt →
      strptimeMDY '-' (formatMMDDYYYY dt) = some dt
      ∧ coerceDate (formatMMDDYYYY dt) = some dt := by
  intro dt h
  have h1 := strptime_format_roundtrip dt h
  exact ⟨h1, by simp [coerceDate, h1]⟩

/-- Witness for C4 at March 15, 2024. -/
theorem c4_witness :
    strptimeMDY '-' (formatMMDDYYYY ⟨2024, 3, 15⟩) = some ⟨2024, 3, 15⟩
    ∧ coerceDate (formatMMDDYYYY ⟨2024, 3, 15⟩) = some ⟨2024, 3, 15⟩ :=
  c4_watchdate_roundtrip ⟨2024, 3, 15⟩ (by decide)

/-- A record without the column has no matching pair. -/
theorem find?_none_keys (r : Record) (c : String) (h : c ∉ recKeys r) :
    List.find? (fun p => p.1 == c) r = none := by
  induction r with
  | nil => rfl
  | cons a rest ih =>
    simp only [recKeys, List.map_cons, List.mem_cons] at h
    push_neg at h
    rw [List.find?_cons_of_neg, ih h.2]
    simp only [beq_iff_eq]
    exact fun e => h.1 e.symm

/-- A record with the column has a matching pair. -/
theorem find?_isSome_keys (r : Record) (c : String) (h : c ∈ recKeys r) :
    (List.find? (fun p => p.1 == c) r).isSome = true := by
  induction r with
  | nil => simp [recKeys] at h
  | cons a rest ih =>
    by_cases ha : a.1 = c
    · rw [List.find?_cons_of_pos]
      · rfl
      · simp [ha]
    · simp only [recKeys, List.map_cons, List.mem_cons] at h
      rcases h with h | h
      · exact absurd h.symm ha
      · rw [List.find?_cons_of_neg]
        · exact ih h
        · simp [ha]

/-- Appending a fresh column pair makes its value visible. -/
theorem lookupRec_append_single (r : Record) (c : String) (v : Value)
    (h : c ∉ recKeys r) : lookupRec (r ++ [(c, v)]) c = some v := by
  rw [lookupRec, List.find?_append, find?_none_keys r c h]
  simp [List.find?]

/-- Appending pairs does not disturb an existing column. -/
theorem lookupRec_append (r tail : Record) (c : String) (h : c ∈ recKeys r) :
    lookupRec (r ++ tail) c = lookupRec r c := by
  rw [lookupRec, lookupRec, List.find?_append]
  cases hf : List.find? (fun p => p.1 == c) r with
  | none =>
    have hs := find?_isSome_keys r c h
    rw [hf] at hs
    simp at hs
  | some x => rfl

/-- Length of right padding. -/
theorem padTo_length {α : Type} (l : List α) (n : Nat) (x : α) :
    (padTo l n x).length = l.length + (n - l.length) := by
  simp [padTo]

/-- Every record built from a sheet row carries exactly the header as
its keys. -/
theorem sheetRecords_keys (header : List String) (rows : List (List Value)) :
    ∀ r ∈ sheetRecords header rows, recKeys r = header := by
  intro r hr
  rw [sheetRecords, List.mem_map] at hr
  obtain ⟨row, _, rfl⟩ := hr
  rw [recKeys]
  apply List.map_fst_zip
  rw [padTo_length]
  omega

/-- Membership survives a conditional column append. -/
theorem mem_grow {a b : String} {ks : List String} (h : a ∈ ks) :
    a ∈ (if b ∈ ks then ks else ks ++ [b]) := by
  split
  · exact h
  · exact List.mem_append_left _ h

/-- The appended name is a member after a conditional column append. -/
theorem self_mem_grow (b : String) (ks : List String) :
    b ∈ (if b ∈ ks then ks else ks ++ [b]) := by
  split
  · assumption
  · simp

/-- A distinct absent name stays absent under a conditional column
append. -/
theorem not_mem_grow {a b : String} {ks : List String} (h : a ∉ ks) (hne : a ≠ b) :
    a ∉ (if b ∈ ks then ks else ks ++ [b]) := by
  split
  · exact h
  · simp [h, hne]

/-- Behaviour of one conditional column fill on a uniformly-keyed
non-empty table: it stays non-empty, keys grow by at most the new
name, an absent column is set to the constant value on every record,
and existing uniform column values survive. -/
theorem addCol_spec (t : Table) (ks : List String) (c : String) (v : Value)
    (hne : t ≠ []) (hu : ∀ r ∈ t, recKeys r = ks) :
    addColIfAbsent t c v ≠ []
    ∧ (∀ r ∈ addColIfAbsent t c v, recKeys r = if c ∈ ks then ks else ks ++ [c])
    ∧ (c ∉ ks → ∀ r ∈ addColIfAbsent t c v, lookupRec r c = some v)
    ∧ (∀ (c2 : String) (val : Value), c2 ∈ ks →
        (∀ r ∈ t, lookupRec r c2 = some val) →
        ∀ r ∈ addColIfAbsent t c v, lookupRec r c2 = some val) := by
  have hcols : tblColumns t = ks := by
    cases t with
    | nil => exact absurd rfl hne
    | cons r rest => exact hu r (List.mem_cons_self r rest)
  by_cases hc : c ∈ ks
  · have heq : addColIfAbsent t c v = t := by rw [addColIfAbsent, hcols, if_pos hc]
    rw [heq]
    refine ⟨hne, ?_, ?_, ?_⟩
    · intro r hr; rw [if_pos hc]; exact hu r hr
    · intro habs; exact absurd hc habs
    · intro c2 val _ hval r hr; exact hval r hr
  · have heq : addColIfAbsent t c v = t.map (fun r => r ++ [(c, v)]) := by
      rw [addColIfAbsent, hcols, if_neg hc]
    rw [heq]
    refine ⟨?_, ?_, ?_, ?_⟩
    · intro hmap
      exact hne (List.map_eq_nil_iff.mp hmap)
    · intro r hr
      rw [List.mem_map] at hr
      obtain ⟨r0, hr0, rfl⟩ := hr
      have hk : recKeys (r0 ++ [(c, v)]) = recKeys r0 ++ [c] := by simp [recKeys]
      rw [if_neg hc, hk, hu r0 hr0]
    · intro _ r hr
      rw [List.mem_map] at hr
      obtain ⟨r0, hr0, rfl⟩ := hr
      have hnk : c ∉ recKeys r0 := by rw [hu r0 hr0]; exact hc
      exact lookupRec_append_single r0 c v hnk
    · intro c2 val hc2 hval r hr
      rw [List.mem_map] at hr
      obtain ⟨r0, hr0, rfl⟩ := hr
      have hm : c2 ∈ recKeys r0 := by rw [hu r0 hr0]; exact hc2
      rw [lookupRec_append r0 [(c, v)] c2 hm]
      exact hval r0 hr0

/-- Behaviour of the four tracking-column fills on a uniformly-keyed
non-empty table: the table stays non-empty, every record ends up with
all four tracking columns, and a tracking column that was absent from
the source keys holds its default on every record. -/
theorem addDefaults_spec (t : Table) (ks : List String)
    (hne : t ≠ []) (hu : ∀ r ∈ t, recKeys r = ks) :
    addDefaults t ≠ []
    ∧ (∀ r ∈ addDefaults t,
        "Watched" ∈ recKeys r ∧ "Personal Rating" ∈ recKeys r
        ∧ "Favorite" ∈ recKeys r ∧ "Watch Date" ∈ recKeys r)
    ∧ ("Watched" ∉ ks → ∀ r ∈ addDefaults t, lookupRec r "Watched" = some (Value.VStr "No"))
    ∧ ("Favorite" ∉ ks → ∀ r ∈ addDefaults t, lookupRec r "Favorite" = some (Value.VStr "No")) := by
  unfold addDefaults
  obtain ⟨h1ne, h1keys, h1set, h1pres⟩ := addCol_spec t ks "Watched" (Value.VStr "No") hne hu
  obtain ⟨h2ne, h2keys, h2set, h2pres⟩ :=
    addCol_spec _ _ "Personal Rating" Value.VNone h1ne h1keys
  obtain ⟨h3ne, h3keys, h3set, h3pres⟩ :=
    addCol_spec _ _ "Favorite" (Value.VStr "No") h2ne h2keys
  obtain ⟨h4ne, h4keys, h4set, h4pres⟩ :=
    addCol_spec _ _ "Watch Date" Value.VNone h3ne h3keys
  refine ⟨h4ne, ?_, ?_, ?_⟩
  · intro r hr
    rw [h4keys r hr]
    exact ⟨mem_grow (mem_grow (mem_grow (self_mem_grow _ _))),
      mem_grow (mem_grow (self_mem_grow _ _)),
      mem_grow (self_mem_grow _ _),
      self_mem_grow _ _⟩
  · intro habs
    have s1 := h1set habs
    have s2 := h2pres "Watched" (Value.VStr "No") (self_mem_grow _ _) s1
    have s3 := h3pres "Watched" (Value.VStr "No") (mem_grow (self_mem_grow _ _)) s2
    exact h4pres "Watched" (Value.VStr "No") (mem_grow (mem_grow (self_mem_grow _ _))) s3
  · intro habs
    have hf1 : "Favorite" ∉ (if "Watched" ∈ ks then ks else ks ++ ["Watched"]) :=
      not_mem_grow habs (by decide)
    have hf2 := @not_mem_grow "Favorite" "Personal Rating" _ hf1 (by decide)
    have s3 := h3set hf2
    exact h4pres "Favorite" (Value.VStr "No") (self_mem_grow _ _) s3

/-- Inversion of a successful sheet processing: it exposes the header,
the raw rows, the non-emptiness test and the shape of the returned
table. -/
theorem processSheet_inv (s : SheetData) (tbl : Table) (mo : Option ShowMeta)
    (hp : processSheet s = .ok (some (tbl, mo))) :
    ∃ header rows, s.headerRes = .ok header ∧ s.recordsRes = .ok rows
      ∧ sheetRecords header rows ≠ []
      ∧ tbl = addDefaults (sheetRecords header rows) := by
  unfold processSheet at hp
  split at hp
  · simp at hp
  · rename_i header hh
    split at hp
    · split at hp
      · simp at hp
      · rename_i rows hr
        dsimp only [] at hp
        split at hp
        · simp at hp
        · rename_i hd
          simp only [Except.ok.injEq, Option.some.injEq, Prod.mk.injEq] at hp
          exact ⟨header, rows, hh, hr, hd, hp.1.symm⟩
    · simp at hp

/-- Every table in the loader result comes from a successfully
processed sheet. -/
theorem loadSheets_table_mem (sheets : List SheetData) (name : String) (tbl : Table) :
    (name, tbl) ∈ (loadSheets sheets).1 →
    ∃ s ∈ sheets, ∃ mo, processSheet s = .ok (some (tbl, mo)) := by
  induction sheets with
  | nil => intro h; simp [loadSheets] at h
  | cons s rest ih =>
    intro h
    cases hp : processSheet s with
    | error e =>
      rw [loadSheets] at h
      simp only [hp] at h
      obtain ⟨s2, hs2, hmo⟩ := ih h
      exact ⟨s2, List.mem_cons_of_mem _ hs2, hmo⟩
    | ok o =>
      cases o with
      | none =>
        rw [loadSheets] at h
        simp only [hp] at h
        obtain ⟨s2, hs2, hmo⟩ := ih h
        exact ⟨s2, List.mem_cons_of_mem _ hs2, hmo⟩
      | some pr =>
        obtain ⟨tbl2, mo2⟩ := pr
        rw [loadSheets] at h
        simp only [hp, List.mem_cons, Prod.mk.injEq] at h
        rcases h with ⟨hn, ht⟩ | h
        · subst ht
          exact ⟨s, List.mem_cons_self _ _, mo2, hp⟩
        · obtain ⟨s2, hs2, hmo⟩ := ih h
          exact ⟨s2, List.mem_cons_of_mem _ hs2, hmo⟩

/-- C6: every episode table the show loader returns is non-empty and
every one of its records carries the four tracking fields; moreover on
any successfully processed sheet a `Watched` or `Favorite` column
absent from the source header is defaulted to the literal `No` on
every record. -/
theorem c6_table_invariant :
    (∀ (store : Option Spreadsheet) (shows : List (String × Table))
        (meta : List (String × ShowMeta)) (warns : List String)
        (name : String) (tbl : Table),
      load_all_show_data store = Except.ok (shows, meta, warns) →
      (name, tbl) ∈ shows →
      tbl ≠ [] ∧ ∀ r ∈ tbl,
        "Watched" ∈ recKeys r ∧ "Personal Rating" ∈ recKeys r
        ∧ "Favorite" ∈ recKeys r ∧ "Watch Date" ∈ recKeys r)
    ∧ (∀ (s : SheetData) (header : List String) (tbl : Table) (mo : Option ShowMeta),
      s.headerRes = .ok header →
      processSheet s = .ok (some (tbl, mo)) →
      ("Watched" ∉ header → ∀ r ∈ tbl, lookupRec r "Watched" = some (Value.VStr "No"))
      ∧ ("Favorite" ∉ header → ∀ r ∈ tbl, lookupRec r "Favorite" = some (Value.VStr "No"))) := by
  constructor
  · intro store shows meta warns name tbl hload hmem
    cases store with
    | none =>
      simp only [load_all_show_data, Except.ok.injEq, Prod.mk.injEq] at hload
      rw [← hload.1] at hmem
      simp at hmem
    | some sp =>
      cases hw : sp.worksheetsRes with
      | error e =>
        rw [load_all_show_data] at hload
        simp [hw] at hload
      | ok sheets =>
        rw [load_all_show_data] at hload
        simp only [hw, Except.ok.injEq] at hload
        have hm2 : (name, tbl) ∈ (loadSheets sheets).1 := by
          rw [hload]; exact hmem
        obtain ⟨s, _, mo, hp⟩ := loadSheets_table_mem sheets name tbl hm2
        obtain ⟨header, rows, hh, hr, hne, rfl⟩ := processSheet_inv s tbl mo hp
        obtain ⟨hane, hkeys, _, _⟩ :=
          addDefaults_spec (sheetRecords header rows) header hne (sheetRecords_keys header rows)
        exact ⟨hane, hkeys⟩
  · intro s header tbl mo hh hp
    obtain ⟨header2, rows, hh2, hr, hne, rfl⟩ := processSheet_inv s tbl mo hp
    rw [hh] at hh2
    have hhe : header = header2 := by
      injection hh2
    subst hhe
    obtain ⟨_, _, hw, hf⟩ :=
      addDefaults_spec (sheetRecords header rows) header hne (sheetRecords_keys header rows)
    exact ⟨hw, hf⟩

/-- Witness for C6 on the concrete no-season sheet, whose header lacks
the `Watched` column. -/
theorem c6_witness :
    ∀ r ∈ ([[("Show Name", Value.VStr "Demo Show"), ("Episode Title", Value.VStr "Pilot"),
        ("Watched", Value.VStr "No"), ("Personal Rating", Value.VNone),
        ("Favorite", Value.VStr "No"), ("Watch Date", Value.VNone)]] : Table),
      lookupRec r "Watched" = some (Value.VStr "No") :=
  (c6_table_invariant.2 demoSheetNoSeason ["Show Name", "Episode Title"]
    [[("Show Name", Value.VStr "Demo Show"), ("Episode Title", Value.VStr "Pilot"),
      ("Watched", Value.VStr "No"), ("Personal Rating", Value.VNone),
      ("Favorite", Value.VStr "No"), ("Watch Date", Value.VNone)]]
    (some { title := Value.VStr "Demo Show", total_episodes := 1, seasons := 0,
            average_rating := none, longest_episode := none })
    (by rfl) (by rfl)).1 (by decide)

/-- Reading a padded list with the padding value as default is reading
the original list. -/
theorem getD_padTo {α : Type} (l : List α) (n : Nat) (x : α) (i : Nat) :
    ((padTo l n x)[i]?).getD x = (l[i]?).getD x := by
  rw [padTo]
  by_cases h : i < l.length
  · rw [List.getElem?_append_left h]
  · rw [List.getElem?_append_right (by omega), List.getElem?_replicate,
      List.getElem?_eq_none (show l.length ≤ i by omega)]
    split <;> rfl

/-- A cell write is visible at its own coordinates. -/
theorem getCell_setCell_eq (g : Grid) (r c : Nat) (v : Value) (hr : 1 ≤ r) (hc : 1 ≤ c) :
    getCell (setCell g r c v) r c = v := by
  rw [getCell, setCell]
  have hlen : r - 1 < (padTo g r []).length := by
    rw [padTo_length]; omega
  rw [List.getElem?_set_self hlen]
  simp only [Option.getD_some]
  rw [setInRow]
  have hlen2 : c - 1 < (padTo ((padTo g r []).getD (r - 1) []) c (Value.VStr "")).length := by
    rw [padTo_length]; omega
  rw [List.getElem?_set_self hlen2]
  rfl

/-- A cell write leaves every other row unchanged. -/
theorem getCell_setCell_ne_row (g : Grid) (r c r2 c2 : Nat) (v : Value)
    (h : r2 - 1 ≠ r - 1) :
    getCell (setCell g r c v) r2 c2 = getCell g r2 c2 := by
  rw [getCell, getCell, setCell]
  rw [List.getElem?_set_ne (fun e => h e.symm)]
  rw [getD_padTo]

/-- A cell write leaves every other column of its row unchanged. -/
theorem getCell_setCell_ne_col (g : Grid) (r c r2 c2 : Nat) (v : Value)
    (hr : 1 ≤ r) (hc : 1 ≤ c) (hrow : r2 - 1 = r - 1) (h : c2 - 1 ≠ c - 1) :
    getCell (setCell g r c v) r2 c2 = getCell g r2 c2 := by
  rw [getCell, getCell, setCell, hrow]
  have hlen : r - 1 < (padTo g r []).length := by
    rw [padTo_length]; omega
  rw [List.getElem?_set_self hlen]
  simp only [Option.getD_some]
  rw [setInRow]
  rw [List.getElem?_set_ne (fun e => h e.symm)]
  rw [getD_padTo, List.getD_eq_getElem?_getD, getD_padTo]

/-- A field write either leaves the grid alone or writes one cell of
its target row. -/
theorem writeField_grid_cases (fails : Nat → Nat → Bool) (row : Nat) (col : Option Nat)
    (v : Value) (label : String) (st : Grid × List String × Option String) :
    (writeField fails row col v label st).1 = st.1
    ∨ ∃ c, col = some c ∧ (writeField fails row col v label st).1 = setCell st.1 row c v := by
  obtain ⟨g, us, err⟩ := st
  cases err with
  | some e => exact Or.inl rfl
  | none =>
    cases col with
    | none => exact Or.inl rfl
    | some c =>
      by_cases hf : fails row c
      · exact Or.inl (by simp [writeField, hf])
      · exact Or.inr ⟨c, rfl, by simp [writeField, hf]⟩

/-- A field write with no target column changes nothing. -/
theorem writeField_colNone (fails : Nat → Nat → Bool) (row : Nat) (v : Value)
    (label : String) (st : Grid × List String × Option String) :
    writeField fails row none v label st = st := by
  obtain ⟨g, us, err⟩ := st
  cases err <;> rfl

/-- A field write leaves every row other than its target unchanged. -/
theorem writeField_row_frame (fails : Nat → Nat → Bool) (row : Nat) (col : Option Nat)
    (v : Value) (label : String) (st : Grid × List String × Option String)
    (r2 c2 : Nat) (h : r2 - 1 ≠ row - 1) :
    getCell (writeField fails row col v label st).1 r2 c2 = getCell st.1 r2 c2 := by
  rcases writeField_grid_cases fails row col v label st with hsame | ⟨c, _, hset⟩
  · rw [hsame]
  · rw [hset]
    exact getCell_setCell_ne_row st.1 row c r2 c2 v h

/-- A field write leaves a column it does not target unchanged. -/
theorem writeField_col_frame (fails : Nat → Nat → Bool) (row : Nat) (col : Option Nat)
    (v : Value) (label : String) (st : Grid × List String × Option String)
    (r2 c2 : Nat) (hrow : 1 ≤ row)
    (h : ∀ c, col = some c → 1 ≤ c ∧ c2 - 1 ≠ c - 1) :
    getCell (writeField fails row col v label st).1 r2 c2 = getCell st.1 r2 c2 := by
  rcases writeField_grid_cases fails row col v label st with hsame | ⟨c, hcol, hset⟩
  · rw [hsame]
  · obtain ⟨hc1, hc2⟩ := h c hcol
    rw [hset]
    by_cases hrow2 : r2 - 1 = row - 1
    · exact getCell_setCell_ne_col st.1 row c r2 c2 v hrow hc1 hrow2 hc2
    · exact getCell_setCell_ne_row st.1 row c r2 c2 v hrow2

/-- A resolved column index points at its own name in the header. -/
theorem colIndex_get (header : List String) (name : String) (i : Nat)
    (h : colIndex header name = some i) :
    ∃ hlt : i < header.length, header.get ⟨i, hlt⟩ = name := by
  induction header generalizing i with
  | nil => simp [colIndex] at h
  | cons a rest ih =>
    rw [colIndex] at h
    by_cases ha : a = name
    · rw [if_pos ha] at h
      injection h with h
      subst h
      exact ⟨by simp, ha⟩
    · rw [if_neg ha] at h
      cases hci : colIndex rest name with
      | none => rw [hci] at h; simp at h
      | some j =>
        rw [hci] at h
        simp only [Option.map_some', Option.some.injEq] at h
        subst h
        obtain ⟨hlt, hget⟩ := ih j hci
        exact ⟨by simpa using Nat.succ_lt_succ hlt, by simpa using hget⟩

/-- Different names resolve to different header positions. -/
theorem colIndex_ne (header : List String) (n1 n2 : String) (i j : Nat)
    (h1 : colIndex header n1 = some i) (h2 : colIndex header n2 = some j)
    (hne : n1 ≠ n2) : i ≠ j := by
  intro e
  subst e
  obtain ⟨hlt1, hg1⟩ := colIndex_get header n1 i h1
  obtain ⟨hlt2, hg2⟩ := colIndex_get header n2 i h2
  exact hne (hg1.symm.trans hg2)

/-- A mapped one-based column of a different name misses a given
resolved column. -/
theorem mapped_col_ne (header : List String) (n1 n2 : String) (j c : Nat)
    (hj : colIndex header n2 = some j) (hne : n1 ≠ n2)
    (hc : (colIndex header n1).map (fun i => i + 1) = some c) :
    1 ≤ c ∧ (j + 1) - 1 ≠ c - 1 := by
  cases hci : colIndex header n1 with
  | none => rw [hci] at hc; simp at hc
  | some i =>
    rw [hci] at hc
    simp only [Option.map_some', Option.some.injEq] at hc
    subst hc
    have hij := colIndex_ne header n1 n2 i j hci hj hne
    constructor
    · omega
    · omega

/-- The writer touches no store row other than `idx + 2`. -/
theorem episodeUpdate_row_frame (fails : Nat → Nat → Bool) (header : List String)
    (g : Grid) (idx : Nat) (ns nr : String) (nf sd : Bool) (fd : String)
    (r2 c2 : Nat) (h : r2 ≠ idx + 2) :
    getCell (episodeUpdate fails header g idx ns nr nf sd fd).1 r2 c2 = getCell g r2 c2 := by
  have hne : r2 - 1 ≠ (idx + 2) - 1 := by omega
  dsimp only [episodeUpdate]
  rw [writeField_row_frame _ _ _ _ _ _ _ _ hne, writeField_row_frame _ _ _ _ _ _ _ _ hne,
    writeField_row_frame _ _ _ _ _ _ _ _ hne, writeField_row_frame _ _ _ _ _ _ _ _ hne]

/-- C2: the writer targets backing-store row `idx + 2` for the episode
at zero-based table position `idx` and touches no other row, and it
resolves each column by looking its name up in the current header row:
under the standard header the example update at position 1 writes
`Yes` into store cell row 3 column 6 (`Watched`) and the formatted
date into row 3 column 9 (`Watch Date`), while under a permuted header
with `Watched` at column 2 the same update writes row 3 column 2. -/
theorem c2_row_targeting :
    (∀ (fails : Nat → Nat → Bool) (header : List String) (g : Grid) (idx : Nat)
        (ns nr : String) (nf sd : Bool) (fd : String) (r2 c2 : Nat), r2 ≠ idx + 2 →
      getCell (episodeUpdate fails header g idx ns nr nf sd fd).1 r2 c2 = getCell g r2 c2)
    ∧ getCell (episodeUpdate noFail hdr1 grid1 1 "Yes" "" false true "03-15-2024").1 3 6
        = Value.VStr "Yes"
    ∧ getCell (episodeUpdate noFail hdr1 grid1 1 "Yes" "" false true "03-15-2024").1 3 9
        = Value.VStr "03-15-2024"
    ∧ getCell (episodeUpdate noFail hdr2 grid1 1 "Yes" "" false true "03-15-2024").1 3 2
        = Value.VStr "Yes" := by
  refine ⟨?_, by decide, by decide, by decide⟩
  intro fails header g idx ns nr nf sd fd r2 c2 h
  exact episodeUpdate_row_frame fails header g idx ns nr nf sd fd r2 c2 h

/-- Witness for C2: a row other than the target is untouched in a
concrete update. -/
theorem c2_witness :
    getCell (episodeUpdate noFail hdr1 grid1 1 "Yes" "" false true "03-15-2024").1 5 1
      = getCell grid1 5 1 :=
  c2_row_targeting.1 noFail hdr1 grid1 1 "Yes" "" false true "03-15-2024" 5 1 (by decide)

/-- C10: when the episode neither is nor becomes watched (the date
input is hidden), the writer leaves the `Watch Date` cell of the
target row unchanged even though the column exists, while the other
three tracking cells are still written when their columns exist and no
write fails. -/
theorem c10_watchdate_frame :
    ∀ (fails : Nat → Nat → Bool) (header : List String) (g : Grid) (idx : Nat)
      (cur : Value) (b : Bool) (nr : String) (nf : Bool) (fd : String),
      showDateFlag (newStatusOf b) cur = false →
      (∀ j, colIndex header "Watch Date" = some j →
        getCell (episodeUpdate fails header g idx (newStatusOf b) nr nf
          (showDateFlag (newStatusOf b) cur) fd).1 (idx + 2) (j + 1)
          = getCell g (idx + 2) (j + 1))
      ∧ (∀ iw ir ic, fails = noFail →
          colIndex header "Watched" = some iw →
          colIndex header "Personal Rating" = some ir →
          colIndex header "Favorite" = some ic →
          getCell (episodeUpdate fails header g idx (newStatusOf b) nr nf
            (showDateFlag (newStatusOf b) cur) fd).1 (idx + 2) (iw + 1)
            = Value.VStr (newStatusOf b)
          ∧ getCell (episodeUpdate fails header g idx (newStatusOf b) nr nf
              (showDateFlag (newStatusOf b) cur) fd).1 (idx + 2) (ir + 1)
            = Value.VStr nr
          ∧ getCell (episodeUpdate fails header g idx (newStatusOf b) nr nf
              (showDateFlag (newStatusOf b) cur) fd).1 (idx + 2) (ic + 1)
            = Value.VStr (if nf then "Yes" else "No")) := by
  intro fails header g idx cur b nr nf fd hsd
  constructor
  · intro j hj
    have hrow : (1 : Nat) ≤ idx + 2 := by omega
    dsimp only [episodeUpdate]
    rw [hsd]
    simp only [Bool.false_eq_true, if_false]
    rw [writeField_colNone]
    rw [writeField_col_frame _ _ _ _ _ _ _ _ hrow
      (fun c hc => mapped_col_ne header "Favorite" "Watch Date" j c hj (by decide) hc)]
    rw [writeField_col_frame _ _ _ _ _ _ _ _ hrow
      (fun c hc => mapped_col_ne header "Personal Rating" "Watch Date" j c hj (by decide) hc)]
    rw [writeField_col_frame _ _ _ _ _ _ _ _ hrow
      (fun c hc => mapped_col_ne header "Watched" "Watch Date" j c hj (by decide) hc)]
  · intro iw ir ic hfails hiw hir hic
    subst hfails
    have hrow : (1 : Nat) ≤ idx + 2 := by omega
    have hwr := colIndex_ne header "Watched" "Personal Rating" iw ir hiw hir (by decide)
    have hwf := colIndex_ne header "Watched" "Favorite" iw ic hiw hic (by decide)
    have hrf := colIndex_ne header "Personal Rating" "Favorite" ir ic hir hic (by decide)
    dsimp only [episodeUpdate]
    rw [hsd, hiw, hir, hic]
    simp only [Bool.false_eq_true, if_false, Option.map_some']
    rw [writeField_colNone]
    simp only [writeField, noFail, Bool.false_eq_true, if_false]
    refine ⟨?_, ?_, ?_⟩
    · rw [getCell_setCell_ne_col _ _ _ _ _ _ hrow (by omega) rfl (by omega)]
      rw [getCell_setCell_ne_col _ _ _ _ _ _ hrow (by omega) rfl (by omega)]
      exact getCell_setCell_eq g (idx + 2) (iw + 1) _ hrow (by omega)
    · rw [getCell_setCell_ne_col _ _ _ _ _ _ hrow (by omega) rfl (by omega)]
      exact getCell_setCell_eq _ (idx + 2) (ir + 1) _ hrow (by omega)
    · exact getCell_setCell_eq _ (idx + 2) (ic + 1) _ hrow (by omega)

/-- Witness for C10: a concrete unwatched episode leaves its
`Watch Date` cell untouched. -/
theorem c10_witness :
    getCell (episodeUpdate noFail hdr1 grid1 1 (newStatusOf false) "" false
      (showDateFlag (newStatusOf false) (Value.VStr "No")) "").1 3 9
      = getCell grid1 3 9 :=
  (c10_watchdate_frame noFail hdr1 grid1 1 (Value.VStr "No") false "" false ""
    (by decide)).1 8 (by decide)

/-- C1 counterexample: with all four columns present and a transport
failure on the `Watched` cell write alone, the claim predicts that the
remaining fields are still attempted (so the `Personal Rating` cell of
store row 3 column 7 would hold the new value 8) and that the caller
receives the list of fields actually written; the code instead aborts
inside the shared try block, leaves the `Personal Rating` cell at its
original empty value, and hands the caller only an error with no
applied-fields list. -/
theorem c1_counterexample :
    trackerResult (episodeUpdate failsWatched hdr1 grid1 1 "Yes" "8" true true "03-15-2024")
      = Except.error "update failed"
    ∧ getCell (episodeUpdate failsWatched hdr1 grid1 1 "Yes" "8" true true "03-15-2024").1 3 7
      = Value.VStr ""
    ∧ Value.VStr "" ≠ Value.VStr "8" :=
  ⟨rfl, by decide, by decide⟩

/-- C1 amended: an absent column is silently skipped and, when every
attempted write succeeds, the caller receives exactly the list of
fields written; but the fields are not independent: a transport
failure on the `Watched` write aborts the remaining writes, leaves the
grid as it was, and the caller receives an error instead of a partial
success list. -/
theorem c1_write_policy :
    (∀ (header : List String) (g : Grid) (idx : Nat) (ns nr : String) (nf sd : Bool)
        (fd : String),
      (episodeUpdate noFail header g idx ns nr nf sd fd).2.2 = none
      ∧ (episodeUpdate noFail header g idx ns nr nf sd fd).2.1
          = appliedLabels header sd ns nr nf fd)
    ∧ (∀ (fails : Nat → Nat → Bool) (header : List String) (g : Grid) (idx : Nat)
        (ns nr : String) (nf sd : Bool) (fd : String) (iw : Nat),
      colIndex header "Watched" = some iw → fails (idx + 2) (iw + 1) = true →
      (episodeUpdate fails header g idx ns nr nf sd fd).1 = g
      ∧ trackerResult (episodeUpdate fails header g idx ns nr nf sd fd)
          = Except.error "update failed") := by
  constructor
  · intro header g idx ns nr nf sd fd
    dsimp only [episodeUpdate]
    cases hw : colIndex header "Watched" <;>
      cases hr : colIndex header "Personal Rating" <;>
        cases hf : colIndex header "Favorite" <;>
          cases hd : colIndex header "Watch Date" <;>
            cases sd <;>
              simp [writeField, noFail, appliedLabels, hw, hr, hf, hd]
  · intro fails header g idx ns nr nf sd fd iw hiw hfail
    dsimp only [episodeUpdate]
    rw [hiw]
    simp only [Option.map_some']
    simp [writeField, hfail, trackerResult]

/-- Witness for C1 at a concrete failing update. -/
theorem c1_witness :
    (episodeUpdate failsWatched hdr1 grid1 1 "No" "" false false "").1 = grid1
    ∧ trackerResult (episodeUpdate failsWatched hdr1 grid1 1 "No" "" false false "")
      = Except.error "update failed" :=
  c1_write_policy.2 failsWatched hdr1 grid1 1 "No" "" false false "" 5 (by decide) (by decide)
